import Mathlib

/-!
Shallow embedding of `src/battery_prediction_app.py`, a single-file
Streamlit dashboard script.  The script's observable behaviour is modelled
as pure functions: the local file system as a map from paths to byte
lists, an uploaded buffer as a byte list, a pandas data frame as a column
list plus a row list, and each widget block as a total function from the
outcomes of its fallible calls (file writes, CSV reads, the dataset
loader) to the list of UI messages it renders.
-/

/- ## File system and upload-and-persist (lines 150-210 of the script) -/

/-- The local file system: a map from path to file content, a file being a
list of bytes. -/
def FS : Type := String → Option (List Nat)

/-- Python `open(path, "wb")` followed by `f.write(buf)`: mode "wb"
truncates, so the file at `path` becomes exactly `buf`; every other path
is untouched. -/
def writeFile (fs : FS) (path : String) (buf : List Nat) : FS :=
  fun p => if p = path then some buf else fs p

/-- The four artifact kinds the Home page can upload: the dataset CSV and
the three pre-trained model files. -/
inductive ArtifactKind
  | datasetCsv
  | xgbJson
  | lstmH5
  | svmJoblib
  deriving DecidableEq

/-- The fixed local path each artifact kind is persisted to (the string
literals at lines 153, 192, 200 and 208 of the script). -/
def artifactPath : ArtifactKind → String
  | .datasetCsv => "nasa_battery_data_combined.csv"
  | .xgbJson    => "xgboost_model_tuned.json"
  | .lstmH5     => "lstm_model_tuned.h5"
  | .svmJoblib  => "one_class_svm_model_tuned.joblib"

/-- Upload-and-persist: write the uploaded buffer wholesale to the fixed
path of the given artifact kind. -/
def uploadPersist (fs : FS) (k : ArtifactKind) (buf : List Nat) : FS :=
  writeFile fs (artifactPath k) buf

/- ## The tabular record set and the summary statistics (lines 109-121,
     159-171) -/

/-- A pandas data frame as the script uses it: a list of column names and
a list of rows, cell `i` of a row belonging to column `i`.  Cell values
are rationals (the script only sums them and counts distinct values). -/
structure DataFrame where
  cols : List String
  rows : List (List Rat)
  deriving DecidableEq

/-- Index of column `c` in the data frame's column list. -/
def colIdx (df : DataFrame) (c : String) : Nat :=
  df.cols.indexOf c

/-- The values of column `c`, one per row (missing cells read as 0). -/
def colVals (df : DataFrame) (c : String) : List Rat :=
  df.rows.map (fun r => r.getD (colIdx df c) 0)

/-- `data[c].sum()`. -/
def colSum (df : DataFrame) (c : String) : Rat :=
  (colVals df c).sum

/-- `len(data[c].unique())`: the number of distinct values in column `c`. -/
def distinctCount (df : DataFrame) (c : String) : Nat :=
  (colVals df c).dedup.length

/-- `len(data)`: the row count shown as the "Total Records" metric
(lines 113 and 165). -/
def totalRecords (df : DataFrame) : Nat :=
  df.rows.length

/-- The value shown by a `st.metric` call: a natural number, a rational,
or the sentinel string "N/A". -/
inductive MetricVal
  | num (n : Nat)
  | rat (q : Rat)
  | na
  deriving DecidableEq

/-- Line 114: `len(data['battery_id'].unique()) if 'battery_id' in
data.columns else "N/A"`. -/
def batteryUnits (df : DataFrame) : MetricVal :=
  if "battery_id" ∈ df.cols then .num (distinctCount df "battery_id")
  else .na

/-- Line 115: `len(data.columns) - 1 if 'failure' in data.columns else
len(data.columns)`. -/
def featureCount (df : DataFrame) : Nat :=
  if "failure" ∈ df.cols then df.cols.length - 1 else df.cols.length

/-- The denominator of the failure-rate division at line 117: `len(data)`,
with no guard against an empty record set. -/
def failureRateDen (df : DataFrame) : Nat :=
  df.rows.length

/-- Line 117: `(data['failure'].sum() / len(data) * 100) if 'failure' in
data.columns else 0`. -/
def failureRate (df : DataFrame) : Rat :=
  if "failure" ∈ df.cols then
    colSum df "failure" / (failureRateDen df : Rat) * 100
  else 0

/- ## CSV reading (line 159) -/

/-- Cell parsing for `pd.read_csv`, restricted to integer literals; every
claim about `readCsv` depends only on the row count, never on cell
values. -/
def parseCell (s : String) : Rat :=
  ((s.toInt?.getD 0 : Int) : Rat)

/-- Split a character list at every comma; the accumulator holds the
current field reversed. -/
def splitCommaAux : List Char → List Char → List (List Char)
  | [], acc => [acc.reverse]
  | c :: cs, acc =>
      if c = ',' then acc.reverse :: splitCommaAux cs []
      else splitCommaAux cs (c :: acc)

/-- Split a CSV line into its comma-separated fields. -/
def splitComma (s : String) : List String :=
  (splitCommaAux s.toList []).map String.mk

/-- `pd.read_csv` on the lines of the uploaded file: an empty file is an
error (pandas raises `EmptyDataError`), the first line is the header,
blank data lines are skipped (the pandas default), every other line
becomes one row. -/
def readCsv (lines : List String) : Option DataFrame :=
  match lines with
  | [] => none
  | header :: body =>
      some { cols := splitComma header
             rows := (body.filter (fun l => l != "")).map
                       (fun l => (splitComma l).map parseCell) }

/-- The expected CSV schema listed at line 178 of the script. -/
def expectedCols : List String :=
  ["battery_id", "cycle", "voltage", "current", "temperature", "capacity",
   "time", "internal_resistance", "SOC", "SOH", "failure"]

/-- A well-formed CSV matching the expected schema: at least the header
line, and every line carrying exactly the expected number of
comma-separated fields. -/
def wellFormedCsv (lines : List String) : Prop :=
  lines ≠ [] ∧ ∀ l ∈ lines, (splitComma l).length = expectedCols.length

/- ## UI messages and the widget blocks -/

/-- One rendered UI element: the `st.success` / `st.error` / `st.info` /
`st.write` / `st.dataframe` / `st.metric` calls of the script. -/
inductive UIMsg
  | success (s : String)
  | error (s : String)
  | info (s : String)
  | writeText (s : String)
  | dataframePreview
  | metric (label : String) (v : MetricVal)
  deriving DecidableEq

/-- The outcome of line 111, `data = load_battery_data()`.
Modelled from the spec: `utils/data_loader.load_battery_data` is not under
`src/`; per the spec it returns the tabular record set, may return no
data, or reports failure (a missing or malformed file) by raising, which
the caller catches. -/
inductive LoadOutcome
  | loaded (df : DataFrame)
  | loadedNone
  | raised (e : String)

/-- The four metrics of the Quick Stats column (lines 113-118). -/
def quickStatsMsgs (df : DataFrame) : List UIMsg :=
  [.metric "Total Records" (.num (totalRecords df)),
   .metric "Battery Units" (batteryUnits df),
   .metric "Features" (.num (featureCount df)),
   .metric "Failure Rate" (.rat (failureRate df))]

/-- The Quick Stats try/except block (lines 109-121): a loaded frame
yields the four metrics, a `None` result yields nothing, and any raised
error is caught and replaced by the error banner plus the informational
prompt to upload data. -/
def quickStatsBlock (r : LoadOutcome) : List UIMsg :=
  match r with
  | .loaded df => quickStatsMsgs df
  | .loadedNone => []
  | .raised _ =>
      [.error "Unable to load dataset statistics",
       .info "Please upload the NASA battery dataset using the data upload section below."]

/-- The preview shown after a successful dataset upload (lines 160-171):
note the "Features" metric here is the plain column count. -/
def previewMsgs (df : DataFrame) : List UIMsg :=
  [.writeText "Data Preview:",
   .dataframePreview,
   .metric "Total Records" (.num (totalRecords df)),
   .metric "Features" (.num df.cols.length)] ++
  (if "failure" ∈ df.cols then
     [.metric "Failure Rate" (.rat (failureRate df))]
   else [])

/-- The dataset-upload try/except block (lines 150-174), as a function of
the outcome of the file write and of the `pd.read_csv` preview: any error
raised inside the block is caught and rendered as an inline error
message. -/
def datasetUploadBlock (w : Except String Unit)
    (preview : Except String DataFrame) : List UIMsg :=
  match w with
  | .error e => [.error ("Error uploading file: " ++ e)]
  | .ok _ =>
      .success "Dataset uploaded successfully! Please refresh the page to load the new data." ::
      (match preview with
       | .error e => [.error ("Error uploading file: " ++ e)]
       | .ok df => previewMsgs df)

/-- The outcome of one upload handler, over all four artifact kinds.  The
dataset branch (lines 150-174) is wrapped in try/except and never lets an
error escape; the three model-upload branches (lines 191-210) perform the
write with no try/except, so an error raised by the write propagates. -/
def uploadOutcome (k : ArtifactKind) (w : Except String Unit)
    (preview : Except String DataFrame) : Except String (List UIMsg) :=
  match k with
  | .datasetCsv => .ok (datasetUploadBlock w preview)
  | .xgbJson => w.map (fun _ => [.success "XGBoost model uploaded!"])
  | .lstmH5 => w.map (fun _ => [.success "LSTM model uploaded!"])
  | .svmJoblib => w.map (fun _ => [.success "SVM model uploaded!"])

/- ## Navigation (lines 63-226) -/

/-- The five render paths the if/elif chain can take. -/
inductive RenderPath
  | home
  | dataExpl
  | modelPerf
  | predictionPage
  | monitoring
  deriving DecidableEq

/-- The five labels of the sidebar selectbox (lines 63-66). -/
def navLabels : List String :=
  ["🏠 Home", "📊 Data Exploration", "🎯 Model Performance",
   "🔮 Prediction", "📈 Battery Monitoring"]

/-- The if/elif dispatch on the selected page label (lines 69-226): a pure
function of the label alone; a label matching no branch renders nothing. -/
def dispatch (page : String) : Option RenderPath :=
  if page = "🏠 Home" then some .home
  else if page = "📊 Data Exploration" then some .dataExpl
  else if page = "🎯 Model Performance" then some .modelPerf
  else if page = "🔮 Prediction" then some .predictionPage
  else if page = "📈 Battery Monitoring" then some .monitoring
  else none

/- ## Theorems -/

/-- Claim C1: for every file system, artifact kind and byte buffer, the
upload-and-persist operation leaves at that kind's fixed path a file whose
content is exactly the buffer, hence of exactly the buffer's length. -/
theorem uploadPersist_writes_buffer_verbatim (fs : FS) (k : ArtifactKind)
    (buf : List Nat) :
    uploadPersist fs k buf (artifactPath k) = some buf ∧
    (uploadPersist fs k buf (artifactPath k)).map List.length =
      some buf.length := by
  constructor <;> simp [uploadPersist, writeFile]

/-- Claim C2: when the failure-label column is absent, the failure rate of
the summary statistics is exactly 0, with no error. -/
theorem failureRate_zero_of_no_failure_col (df : DataFrame)
    (h : "failure" ∉ df.cols) : failureRate df = 0 := by
  simp [failureRate, h]

/-- Witness for claim C2 at a concrete frame without a failure column. -/
theorem failureRate_zero_of_no_failure_col_witness :
    "failure" ∉ (DataFrame.mk ["battery_id", "cycle"] [[1, 2]]).cols ∧
    failureRate (DataFrame.mk ["battery_id", "cycle"] [[1, 2]]) = 0 :=
  ⟨by decide, failureRate_zero_of_no_failure_col _ (by decide)⟩

/-- Claim C3: every raised dataset-load failure is caught by the Quick
Stats block and replaced by the error banner and the informational prompt
to upload data; the block is a total function, so nothing propagates. -/
theorem quickStats_load_failure_yields_prompt (e : String) :
    quickStatsBlock (.raised e) =
      [.error "Unable to load dataset statistics",
       .info "Please upload the NASA battery dataset using the data upload section below."] :=
  rfl

/-- Counterexample to claim C4 as stated: it is not the case that every
write error is caught over all four artifact kinds — an XGBoost-model
write error propagates out of the handler. -/
theorem uploadOutcome_not_all_errors_caught :
    ¬ ∀ (k : ArtifactKind) (w : Except String Unit)
        (p : Except String DataFrame),
        ∃ msgs, uploadOutcome k w p = .ok msgs := by
  intro h
  obtain ⟨msgs, hm⟩ := h .xgbJson (.error "disk full") (.error "no preview")
  exact Except.noConfusion hm

/-- Claim C4 (amended): an error raised while writing the dataset CSV is
caught and converted to an inline message, but an error raised while
writing any of the three model files propagates uncaught. -/
theorem uploadOutcome_dataset_caught_models_propagate :
    (∀ (w : Except String Unit) (p : Except String DataFrame),
        ∃ msgs, uploadOutcome .datasetCsv w p = .ok msgs) ∧
    (∀ (e : String) (p : Except String DataFrame),
        uploadOutcome .xgbJson (.error e) p = .error e) ∧
    (∀ (e : String) (p : Except String DataFrame),
        uploadOutcome .lstmH5 (.error e) p = .error e) ∧
    (∀ (e : String) (p : Except String DataFrame),
        uploadOutcome .svmJoblib (.error e) p = .error e) :=
  ⟨fun w p => ⟨datasetUploadBlock w p, rfl⟩,
   fun _ _ => rfl, fun _ _ => rfl, fun _ _ => rfl⟩

/-- Claim C5: each of the five navigation labels dispatches to exactly its
own render path, and the five outcomes are pairwise distinct. -/
theorem dispatch_maps_each_label_to_its_page :
    dispatch "🏠 Home" = some .home ∧
    dispatch "📊 Data Exploration" = some .dataExpl ∧
    dispatch "🎯 Model Performance" = some .modelPerf ∧
    dispatch "🔮 Prediction" = some .predictionPage ∧
    dispatch "📈 Battery Monitoring" = some .monitoring ∧
    (navLabels.map dispatch).Nodup := by
  decide

/-- Claim C6: a second upload of the same artifact kind fully replaces the
first — the composite equals a single upload of the latest buffer, and the
file at the kind's path holds exactly the latest bytes. -/
theorem uploadPersist_last_write_wins (fs : FS) (k : ArtifactKind)
    (b1 b2 : List Nat) :
    uploadPersist (uploadPersist fs k b1) k b2 = uploadPersist fs k b2 ∧
    uploadPersist (uploadPersist fs k b1) k b2 (artifactPath k) = some b2 := by
  constructor
  · funext p
    by_cases h : p = artifactPath k <;> simp [uploadPersist, writeFile, h]
  · simp [uploadPersist, writeFile]

/-- Claim C7: for a well-formed CSV matching the expected schema, the row
count reported as "Total Records" is the file's line count minus one. -/
theorem readCsv_rowcount_lines_minus_one (lines : List String)
    (h : wellFormedCsv lines) :
    ∃ df, readCsv lines = some df ∧ totalRecords df = lines.length - 1 := by
  obtain ⟨hne, hlen⟩ := h
  cases lines with
  | nil => exact absurd rfl hne
  | cons header body =>
      refine ⟨_, rfl, ?_⟩
      have hfilter : body.filter (fun l => l != "") = body := by
        apply List.filter_eq_self.mpr
        intro l hl
        have h11 := hlen l (List.mem_cons_of_mem _ hl)
        simp only [bne_iff_ne, ne_eq]
        intro hcontra
        rw [hcontra] at h11
        revert h11
        decide
      simp [totalRecords, readCsv, hfilter]

/-- Witness for claim C7 at a concrete two-line CSV in the expected
schema. -/
theorem readCsv_rowcount_witness :
    wellFormedCsv
      ["battery_id,cycle,voltage,current,temperature,capacity,time,internal_resistance,SOC,SOH,failure",
       "B0005,1,4,2,24,2,3600,1,100,100,0"] ∧
    ∃ df, readCsv
      ["battery_id,cycle,voltage,current,temperature,capacity,time,internal_resistance,SOC,SOH,failure",
       "B0005,1,4,2,24,2,3600,1,100,100,0"] = some df ∧
      totalRecords df = 1 :=
  ⟨⟨by decide, by decide⟩,
   readCsv_rowcount_lines_minus_one _ ⟨by decide, by decide⟩⟩

/-- Claim C8: the "Features" metric of Quick Stats is the column count
minus one exactly when the failure column is present, and the plain column
count when it is absent. -/
theorem featureCount_excludes_failure_only_when_present (df : DataFrame) :
    ("failure" ∈ df.cols → featureCount df = df.cols.length - 1) ∧
    ("failure" ∉ df.cols → featureCount df = df.cols.length) := by
  constructor <;> intro h <;> simp [featureCount, h]

/-- Witness for claim C8 at concrete frames with and without the failure
column. -/
theorem featureCount_excludes_failure_witness :
    ("failure" ∈ (DataFrame.mk ["cycle", "failure"] []).cols ∧
      featureCount (DataFrame.mk ["cycle", "failure"] []) = 1) ∧
    ("failure" ∉ (DataFrame.mk ["cycle"] []).cols ∧
      featureCount (DataFrame.mk ["cycle"] []) = 1) :=
  ⟨⟨by decide,
    (featureCount_excludes_failure_only_when_present _).1 (by decide)⟩,
   ⟨by decide,
    (featureCount_excludes_failure_only_when_present _).2 (by decide)⟩⟩

/-- Claim C9: the "Battery Units" metric reports the sentinel "N/A" when
the battery-identifier column is absent, and the distinct-identifier count
when it is present — never an error. -/
theorem batteryUnits_na_when_col_absent (df : DataFrame) :
    ("battery_id" ∉ df.cols → batteryUnits df = .na) ∧
    ("battery_id" ∈ df.cols →
      batteryUnits df = .num (distinctCount df "battery_id")) := by
  constructor <;> intro h <;> simp [batteryUnits, h]

/-- Witness for claim C9 at a concrete frame without the battery-id
column. -/
theorem batteryUnits_na_witness :
    "battery_id" ∉ (DataFrame.mk ["cycle"] []).cols ∧
    batteryUnits (DataFrame.mk ["cycle"] []) = .na :=
  ⟨by decide, (batteryUnits_na_when_col_absent _).1 (by decide)⟩

/-- Claim C10: with the failure column present, the failure rate divides
the column sum by the unguarded denominator `len(data)`; that denominator
is zero exactly on a zero-row record set, so the percentage is well
defined only for non-empty data. -/
theorem failureRate_denominator_unguarded (df : DataFrame)
    (hcol : "failure" ∈ df.cols) :
    (df.rows = [] → failureRateDen df = 0) ∧
    (df.rows ≠ [] → failureRateDen df ≠ 0) ∧
    failureRate df = colSum df "failure" / (failureRateDen df : Rat) * 100 := by
  refine ⟨?_, ?_, ?_⟩
  · intro h
    simp [failureRateDen, h]
  · intro h
    simp only [failureRateDen, ne_eq, List.length_eq_zero]
    exact h
  · simp [failureRate, hcol]

/-- Witness for claim C10 at a concrete zero-row frame with the failure
column: the denominator is zero. -/
theorem failureRate_denominator_witness :
    "failure" ∈ (DataFrame.mk ["failure"] []).cols ∧
    failureRateDen (DataFrame.mk ["failure"] []) = 0 :=
  ⟨by decide, (failureRate_denominator_unguarded _ (by decide)).1 rfl⟩
